import Mathlib

/-!
Shallow embedding of `dolfinx_materials/jax_materials/elasticity.py`.

Python floats are modelled by exact rationals `ℚ` (note that in `ℚ`,
division by zero yields `0`); `jax.numpy` arrays of shape `(6,)` and
`(6, 6)` are modelled by `Fin 6 → ℚ` and `Matrix (Fin 6) (Fin 6) ℚ`;
the mutable Python state dictionary is modelled by a total function
`String → Option (Fin 6 → ℚ)`, and the mutation `state["Stress"] = sig`
by a functional update.  The `__init__` constructor, which can raise
`ValueError`, is modelled by a function into `Except String`.
-/

/-- Modelled from the spec: the module `dolfinx_materials.jax_materials.tensors`
(imported by `elasticity.py` for the fourth-order tensors `J` and `K`) is not
part of the provided sources.  `J` is the standard spherical projector in
6-dimensional Mandel notation, `1/3 · e ⊗ e` with `e = (1,1,1,0,0,0)`. -/
def Jmat : Matrix (Fin 6) (Fin 6) ℚ :=
  Matrix.of fun i j => if i.val < 3 ∧ j.val < 3 then 1 / 3 else 0

/-- Modelled from the spec: the deviatoric projector `K = I − J` of the
missing `tensors` module. -/
def Kmat : Matrix (Fin 6) (Fin 6) ℚ := 1 - Jmat

/-- The state dictionary passed to `constitutive_update`: a map from string
keys to array values (absent keys map to `none`). -/
def StateDict : Type := String → Option (Fin 6 → ℚ)

/-- The attributes stored on a `LinearElasticIsotropic` instance by
`__init__`: the four moduli `E`, `nu`, `kappa`, `mu` and the stiffness and
compliance matrices `C` and `S`. -/
structure LinearElasticIsotropic where
  E : ℚ
  nu : ℚ
  kappa : ℚ
  mu : ℚ
  C : Matrix (Fin 6) (Fin 6) ℚ
  S : Matrix (Fin 6) (Fin 6) ℚ
deriving DecidableEq

/-- The `(E, nu)` branch of `LinearElasticIsotropic.__init__`:
`kappa = E / (3 * (1 - 2 * nu))`, `mu = E / (2 * (1 + nu))`, then
`C = 3 * kappa * J + 2 * mu * K` and
`S = 1 / (3 * kappa) * J + 1 / (2 * mu) * K`. -/
def LinearElasticIsotropic.ofEnu (E nu : ℚ) : LinearElasticIsotropic :=
  let kappa := E / (3 * (1 - 2 * nu))
  let mu := E / (2 * (1 + nu))
  { E := E, nu := nu, kappa := kappa, mu := mu
    C := (3 * kappa) • Jmat + (2 * mu) • Kmat
    S := (1 / (3 * kappa)) • Jmat + (1 / (2 * mu)) • Kmat }

/-- The `(kappa, mu)` branch of `LinearElasticIsotropic.__init__`:
`E = 9 * kappa * mu / (3 * kappa + mu)`,
`nu = (3 * kappa - 2 * mu) / (2 * (3 * kappa + mu))`, then `C` and `S`
exactly as in the other branch. -/
def LinearElasticIsotropic.ofKmu (kappa mu : ℚ) : LinearElasticIsotropic :=
  let E := 9 * kappa * mu / (3 * kappa + mu)
  let nu := (3 * kappa - 2 * mu) / (2 * (3 * kappa + mu))
  { E := E, nu := nu, kappa := kappa, mu := mu
    C := (3 * kappa) • Jmat + (2 * mu) • Kmat
    S := (1 / (3 * kappa)) • Jmat + (1 / (2 * mu)) • Kmat }

/-- Full `LinearElasticIsotropic.__init__(E=None, nu=None, kappa=None,
mu=None)`: if `E is not None and nu is not None` take the `(E, nu)` branch,
elif `kappa is not None and mu is not None` take the `(kappa, mu)` branch,
else raise `ValueError`. -/
def LinearElasticIsotropic.init (E? nu? kappa? mu? : Option ℚ) :
    Except String LinearElasticIsotropic :=
  match E?, nu? with
  | some E, some nu => .ok (LinearElasticIsotropic.ofEnu E nu)
  | _, _ =>
    match kappa?, mu? with
    | some kappa, some mu => .ok (LinearElasticIsotropic.ofKmu kappa mu)
    | _, _ =>
      .error "Invalid combination of inputs. Provide either (E, nu) or (kappa, mu)."

/-- `LinearElasticIsotropic.get_Lame_parameters(self, E, nu)`:
returns `(E * nu / (1 + nu) / (1 - 2 * nu), E / 2 / (1 + nu))`.
The method never reads `self`, so it is embedded without it. -/
def LinearElasticIsotropic.get_Lame_parameters (E nu : ℚ) : ℚ × ℚ :=
  (E * nu / (1 + nu) / (1 - 2 * nu), E / 2 / (1 + nu))

/-- `LinearElasticIsotropic.compute_C(self, E, nu)`:
`lmbda, mu = self.get_Lame_parameters(E, nu)`, `kappa = lmbda + 2 / 3 * mu`,
returns `3 * kappa * J + 2 * mu * K`.  On a base-class instance the
dispatched `get_Lame_parameters` is the base-class one. -/
def LinearElasticIsotropic.compute_C (E nu : ℚ) : Matrix (Fin 6) (Fin 6) ℚ :=
  let p := LinearElasticIsotropic.get_Lame_parameters E nu
  let lmbda := p.1
  let mu := p.2
  let kappa := lmbda + 2 / 3 * mu
  (3 * kappa) • Jmat + (2 * mu) • Kmat

/-- `LinearElasticIsotropic.compute_C_plane_stress(self)`:
`factor = E / (1 - nu**2)`, `C11 = C22 = factor`, `C12 = factor * nu`,
`C33 = E / (2 * (1 + nu))`, returns
`[[C11, C12, 0], [C12, C22, 0], [0, 0, C33]]`. -/
def LinearElasticIsotropic.compute_C_plane_stress (m : LinearElasticIsotropic) :
    Matrix (Fin 3) (Fin 3) ℚ :=
  let E := m.E
  let nu := m.nu
  let factor := E / (1 - nu ^ 2)
  let C11 := factor
  let C22 := factor
  let C12 := factor * nu
  let C33 := E / (2 * (1 + nu))
  !![C11, C12, 0; C12, C22, 0; 0, 0, C33]

/-- `LinearElasticIsotropic.constitutive_update(self, eps, state, dt)`:
`sig = jnp.dot(self.C, eps)`, `state["Stress"] = sig`,
`return self.C, state`.  The embedding passes the heap explicitly: the
result is `(self after the call, returned pair)`; the method performs no
attribute assignment, so the first component is `m` itself. -/
def LinearElasticIsotropic.constitutive_update (m : LinearElasticIsotropic)
    (eps : Fin 6 → ℚ) (state : StateDict) (dt : ℚ) :
    LinearElasticIsotropic × Matrix (Fin 6) (Fin 6) ℚ × StateDict :=
  let _ := dt
  let sig := m.C.mulVec eps
  let state1 : StateDict := fun k => if k = "Stress" then some sig else state k
  (m, m.C, state1)

/-- A Python value appearing in the tuple returned by `constitutive_update`:
a matrix, a vector, or a state dictionary. -/
inductive PyVal where
  | mat : Matrix (Fin 6) (Fin 6) ℚ → PyVal
  | vec : (Fin 6 → ℚ) → PyVal
  | dict : StateDict → PyVal

/-- The Python tuple produced by the `return self.C, state` statement of
`constitutive_update`, viewed as a sequence of values. -/
def LinearElasticIsotropic.constitutive_update_ret (m : LinearElasticIsotropic)
    (eps : Fin 6 → ℚ) (state : StateDict) (dt : ℚ) : List PyVal :=
  [PyVal.mat (m.constitutive_update eps state dt).2.1,
   PyVal.dict (m.constitutive_update eps state dt).2.2]

/-- `PlaneStressLinearElasticIsotropic.get_Lame_parameters(self, E, nu)`:
`lmbda_ = E * nu / (1 + nu) / (1 - 2 * nu)`, `mu = E / 2 / (1 + nu)`,
returns `(2 * mu * lmbda_ / (lmbda_ + 2 * mu), mu)`. -/
def PlaneStressLinearElasticIsotropic.get_Lame_parameters (E nu : ℚ) : ℚ × ℚ :=
  let lmbda_ := E * nu / (1 + nu) / (1 - 2 * nu)
  let mu := E / 2 / (1 + nu)
  (2 * mu * lmbda_ / (lmbda_ + 2 * mu), mu)

/-- `__init__` as executed on a `PlaneStressLinearElasticIsotropic` instance:
the subclass defines no `__init__`, so the inherited base-class body runs;
that body calls no overridable method, so its embedding is textually the
base-class `(E, nu)` branch. -/
def PlaneStressLinearElasticIsotropic.ofEnu (E nu : ℚ) : LinearElasticIsotropic :=
  let kappa := E / (3 * (1 - 2 * nu))
  let mu := E / (2 * (1 + nu))
  { E := E, nu := nu, kappa := kappa, mu := mu
    C := (3 * kappa) • Jmat + (2 * mu) • Kmat
    S := (1 / (3 * kappa)) • Jmat + (1 / (2 * mu)) • Kmat }

/-- `constitutive_update` as executed on a `PlaneStressLinearElasticIsotropic`
instance: inherited unchanged from the base class, and its body calls no
overridable method. -/
def PlaneStressLinearElasticIsotropic.constitutive_update
    (m : LinearElasticIsotropic) (eps : Fin 6 → ℚ) (state : StateDict) (dt : ℚ) :
    LinearElasticIsotropic × Matrix (Fin 6) (Fin 6) ℚ × StateDict :=
  let _ := dt
  let sig := m.C.mulVec eps
  let state1 : StateDict := fun k => if k = "Stress" then some sig else state k
  (m, m.C, state1)

/-- `compute_C` as executed on a `PlaneStressLinearElasticIsotropic` instance:
the inherited body dispatches `self.get_Lame_parameters` to the override. -/
def PlaneStressLinearElasticIsotropic.compute_C (E nu : ℚ) :
    Matrix (Fin 6) (Fin 6) ℚ :=
  let p := PlaneStressLinearElasticIsotropic.get_Lame_parameters E nu
  let lmbda := p.1
  let mu := p.2
  let kappa := lmbda + 2 / 3 * mu
  (3 * kappa) • Jmat + (2 * mu) • Kmat

/-- An empty state dictionary, used as a concrete input. -/
def emptyState : StateDict := fun _ => none

/-- A concrete strain vector, used as a concrete input. -/
def epsOne : Fin 6 → ℚ := fun _ => 1

/-- C1: for every successfully constructed `LinearElasticIsotropic` instance
`m`, every strain `eps`, state and timestep, `constitutive_update` returns
`m.C` as the tangent operator and a state whose `"Stress"` entry equals
`m.C · eps`. -/
theorem C1_constitutive_update_stress (E? nu? kappa? mu? : Option ℚ)
    (m : LinearElasticIsotropic)
    (h : LinearElasticIsotropic.init E? nu? kappa? mu? = .ok m)
    (eps : Fin 6 → ℚ) (state : StateDict) (dt : ℚ) :
    (m.constitutive_update eps state dt).2.1 = m.C ∧
    (m.constitutive_update eps state dt).2.2 "Stress" = some (m.C.mulVec eps) := by
  exact ⟨rfl, by simp [LinearElasticIsotropic.constitutive_update]⟩

/-- Witness for C1 at `E = 9`, `nu = 1/4`, `eps = (1,…,1)`, the empty state
and `dt = 0`. -/
theorem C1_witness :
    LinearElasticIsotropic.init (some 9) (some (1/4)) none none =
      .ok (LinearElasticIsotropic.ofEnu 9 (1/4)) ∧
    (((LinearElasticIsotropic.ofEnu 9 (1/4)).constitutive_update epsOne emptyState 0).2.1 =
        (LinearElasticIsotropic.ofEnu 9 (1/4)).C ∧
      ((LinearElasticIsotropic.ofEnu 9 (1/4)).constitutive_update epsOne emptyState 0).2.2 "Stress" =
        some ((LinearElasticIsotropic.ofEnu 9 (1/4)).C.mulVec epsOne)) :=
  ⟨rfl, C1_constitutive_update_stress (some 9) (some (1/4)) none none _ rfl epsOne emptyState 0⟩

/-- C2 counterexample: the value returned by `constitutive_update` is not a
triple (tangent, stress, updated state) — at a concrete instance, strain,
state and timestep, the returned tuple has no separate stress component. -/
theorem C2_counterexample :
    ¬ ∃ (t : Matrix (Fin 6) (Fin 6) ℚ) (s : Fin 6 → ℚ) (st : StateDict),
      (LinearElasticIsotropic.ofEnu 9 (1/4)).constitutive_update_ret epsOne emptyState 0 =
        [PyVal.mat t, PyVal.vec s, PyVal.dict st] := by
  rintro ⟨t, s, st, h⟩
  simp [LinearElasticIsotropic.constitutive_update_ret] at h

/-- C2 amended: `constitutive_update` maps (strain, state, timestep) to the
pair (tangent operator, updated state); the stress is not a separate
component of the result but is exposed through the `"Stress"` entry of the
updated state. -/
theorem C2_returns_tangent_and_state (m : LinearElasticIsotropic)
    (eps : Fin 6 → ℚ) (state : StateDict) (dt : ℚ) :
    (m.constitutive_update_ret eps state dt).length = 2 ∧
    m.constitutive_update_ret eps state dt =
      [PyVal.mat m.C,
       PyVal.dict (fun k => if k = "Stress" then some (m.C.mulVec eps) else state k)] ∧
    (m.constitutive_update eps state dt).2.2 "Stress" = some (m.C.mulVec eps) := by
  refine ⟨rfl, rfl, ?_⟩
  simp [LinearElasticIsotropic.constitutive_update]

/-- C3: the returned tangent is the Jacobian of the computed stress with
respect to the strain: the difference of the `"Stress"` entries produced at
`eps1` and `eps2` equals the returned tangent applied to `eps1 - eps2`. -/
theorem C3_tangent_is_jacobian (m : LinearElasticIsotropic)
    (eps1 eps2 : Fin 6 → ℚ) (state : StateDict) (dt : ℚ) :
    ∃ sig1 sig2 : Fin 6 → ℚ,
      (m.constitutive_update eps1 state dt).2.2 "Stress" = some sig1 ∧
      (m.constitutive_update eps2 state dt).2.2 "Stress" = some sig2 ∧
      sig1 - sig2 = (m.constitutive_update eps1 state dt).2.1.mulVec (eps1 - eps2) := by
  refine ⟨m.C.mulVec eps1, m.C.mulVec eps2,
    by simp [LinearElasticIsotropic.constitutive_update],
    by simp [LinearElasticIsotropic.constitutive_update], ?_⟩
  show m.C.mulVec eps1 - m.C.mulVec eps2 = m.C.mulVec (eps1 - eps2)
  rw [Matrix.mulVec_sub]

/-- C8: `__init__` raises `ValueError` exactly when neither the pair
`(E, nu)` nor the pair `(kappa, mu)` is fully provided (in the embedding no
instance is produced in that case), and when `(E, nu)` is fully provided it
takes precedence: the result is the `(E, nu)`-branch instance whatever
`kappa` and `mu` were passed. -/
theorem C8_init_error_iff :
    (∀ E? nu? kappa? mu? : Option ℚ,
      (∃ msg, LinearElasticIsotropic.init E? nu? kappa? mu? = .error msg) ↔
        ((E? = none ∨ nu? = none) ∧ (kappa? = none ∨ mu? = none))) ∧
    (∀ (E nu : ℚ) (kappa? mu? : Option ℚ),
      LinearElasticIsotropic.init (some E) (some nu) kappa? mu? =
        .ok (LinearElasticIsotropic.ofEnu E nu)) := by
  constructor
  · intro E? nu? kappa? mu?
    cases E? <;> cases nu? <;> cases kappa? <;> cases mu? <;>
      simp [LinearElasticIsotropic.init]
  · intro E nu kappa? mu?
    rfl

/-- C9: the plane-stress subclass stores exactly the same attributes as the
base class built from the same `(E, nu)` arguments, and its (inherited)
`constitutive_update` returns identical results on every input: neither the
inherited `__init__` nor `constitutive_update` invokes the overridden
`get_Lame_parameters`. -/
theorem C9_plane_stress_inherits :
    (∀ E nu : ℚ,
      PlaneStressLinearElasticIsotropic.ofEnu E nu =
        LinearElasticIsotropic.ofEnu E nu) ∧
    (∀ (m : LinearElasticIsotropic) (eps : Fin 6 → ℚ) (state : StateDict) (dt : ℚ),
      PlaneStressLinearElasticIsotropic.constitutive_update m eps state dt =
        m.constitutive_update eps state dt) :=
  ⟨fun _ _ => rfl, fun _ _ _ _ => rfl⟩

/-- C10: `constitutive_update` modifies only the `"Stress"` entry of the
state, leaves the material attributes unchanged (the instance returned by
the heap-passing embedding is `m` itself), and is independent of `dt`. -/
theorem C10_frame (m : LinearElasticIsotropic) (eps : Fin 6 → ℚ)
    (state : StateDict) (dt dt' : ℚ) (k : String) (hk : k ≠ "Stress") :
    (m.constitutive_update eps state dt).1 = m ∧
    (m.constitutive_update eps state dt).2.2 k = state k ∧
    m.constitutive_update eps state dt = m.constitutive_update eps state dt' := by
  refine ⟨rfl, ?_, rfl⟩
  simp [LinearElasticIsotropic.constitutive_update, hk]

/-- Witness for C10 at a concrete instance, strain, state, two timesteps
and the key `"Other"`. -/
theorem C10_witness :
    ("Other" : String) ≠ "Stress" ∧
    (((LinearElasticIsotropic.ofEnu 9 (1/4)).constitutive_update epsOne emptyState 0).1 =
        LinearElasticIsotropic.ofEnu 9 (1/4) ∧
      ((LinearElasticIsotropic.ofEnu 9 (1/4)).constitutive_update epsOne emptyState 0).2.2 "Other" =
        emptyState "Other" ∧
      (LinearElasticIsotropic.ofEnu 9 (1/4)).constitutive_update epsOne emptyState 0 =
        (LinearElasticIsotropic.ofEnu 9 (1/4)).constitutive_update epsOne emptyState 1) :=
  ⟨by decide, C10_frame (LinearElasticIsotropic.ofEnu 9 (1/4)) epsOne emptyState 0 1 "Other" (by decide)⟩

/-- Helper: the first plane-stress Lamé parameter `2·mu·lambda/(lambda + 2·mu)`
equals `E·nu/(1 - nu²)` away from `nu = 1/2` and `nu = -1`. -/
theorem lame_ratio_eq (E nu : ℚ) (h1 : nu ≠ 1/2) (h2 : nu ≠ -1) :
    2 * (E / 2 / (1 + nu)) * (E * nu / (1 + nu) / (1 - 2 * nu)) /
      (E * nu / (1 + nu) / (1 - 2 * nu) + 2 * (E / 2 / (1 + nu))) =
    E * nu / (1 - nu ^ 2) := by
  have ha : (1 : ℚ) + nu ≠ 0 := fun h => h2 (by linarith)
  have hb : (1 : ℚ) - 2 * nu ≠ 0 := fun h => h1 (by linarith)
  by_cases hE : E = 0
  · simp [hE]
  by_cases hn1 : nu = 1
  · subst hn1
    have hz : E * 1 / (1 + 1) / (1 - 2 * 1) + 2 * (E / 2 / (1 + 1)) = (0 : ℚ) := by ring
    rw [hz, div_zero]
    norm_num
  · have h1n : (1 : ℚ) - nu ≠ 0 := fun h => hn1 (by linarith)
    have hsq : (1 : ℚ) - nu ^ 2 ≠ 0 := by
      have hf : (1 : ℚ) - nu ^ 2 = (1 - nu) * (1 + nu) := by ring
      rw [hf]
      exact mul_ne_zero h1n ha
    have hden : E * nu / (1 + nu) / (1 - 2 * nu) + 2 * (E / 2 / (1 + nu)) =
        E * (1 - nu) / ((1 + nu) * (1 - 2 * nu)) := by
      field_simp
      ring
    rw [hden]
    have hd : E * (1 - nu) / ((1 + nu) * (1 - 2 * nu)) ≠ 0 :=
      div_ne_zero (mul_ne_zero hE h1n) (mul_ne_zero ha hb)
    field_simp
    ring

/-- Helper: `3·(lambda + 2/3·mu)` computed from the Lamé parameters equals
`3·(E/(3·(1 - 2·nu)))`, the bulk-modulus route of `__init__`. -/
theorem kappa_from_lame_eq (E nu : ℚ) (h1 : nu ≠ 1/2) (h2 : nu ≠ -1) :
    (3 : ℚ) * (E * nu / (1 + nu) / (1 - 2 * nu) + 2 / 3 * (E / 2 / (1 + nu))) =
      3 * (E / (3 * (1 - 2 * nu))) := by
  have ha : (1 : ℚ) + nu ≠ 0 := fun h => h2 (by linarith)
  have hb : (1 : ℚ) - 2 * nu ≠ 0 := fun h => h1 (by linarith)
  field_simp
  ring

/-- Helper: recovering the bulk modulus from the `(kappa, mu)`-derived
`E` and `nu` gives back `kappa`. -/
theorem kmu_E_over_bulk (kappa mu : ℚ) (hk : 0 < kappa) (hm : 0 < mu) :
    9 * kappa * mu / (3 * kappa + mu) /
      (3 * (1 - 2 * ((3 * kappa - 2 * mu) / (2 * (3 * kappa + mu))))) = kappa := by
  have hs : (3 * kappa + mu : ℚ) ≠ 0 := by positivity
  have hm0 : (mu : ℚ) ≠ 0 := ne_of_gt hm
  have hden : (3 : ℚ) * (1 - 2 * ((3 * kappa - 2 * mu) / (2 * (3 * kappa + mu)))) =
      9 * mu / (3 * kappa + mu) := by
    field_simp
    ring
  rw [hden]
  field_simp
  ring

/-- Helper: recovering the shear modulus from the `(kappa, mu)`-derived
`E` and `nu` gives back `mu`. -/
theorem kmu_E_over_shear (kappa mu : ℚ) (hk : 0 < kappa) (hm : 0 < mu) :
    9 * kappa * mu / (3 * kappa + mu) /
      (2 * (1 + (3 * kappa - 2 * mu) / (2 * (3 * kappa + mu)))) = mu := by
  have hs : (3 * kappa + mu : ℚ) ≠ 0 := by positivity
  have hk0 : (kappa : ℚ) ≠ 0 := ne_of_gt hk
  have hden : (2 : ℚ) * (1 + (3 * kappa - 2 * mu) / (2 * (3 * kappa + mu))) =
      9 * kappa / (3 * kappa + mu) := by
    field_simp
    ring
  rw [hden]
  field_simp

/-- Helper: `E/(2·(1 + nu)) = (E/(1 - nu²))·(1 - nu)/2` away from
`nu = 1` and `nu = -1`. -/
theorem c33_eq (E nu : ℚ) (h1 : nu ≠ 1) (h2 : nu ≠ -1) :
    E / (2 * (1 + nu)) = E / (1 - nu ^ 2) * (1 - nu) / 2 := by
  have h1n : (1 : ℚ) - nu ≠ 0 := fun h => h1 (by linarith)
  have ha : (1 : ℚ) + nu ≠ 0 := fun h => h2 (by linarith)
  have hsq : (1 : ℚ) - nu ^ 2 ≠ 0 := by
    have hf : (1 : ℚ) - nu ^ 2 = (1 - nu) * (1 + nu) := by ring
    rw [hf]
    exact mul_ne_zero h1n ha
  field_simp
  ring

/-- C4: the plane-stress `get_Lame_parameters` returns
`(2·mu·lambda/(lambda + 2·mu), mu)` built from the base-class Lamé
parameters, and its first component equals `E·nu/(1 - nu²)`, the
off-diagonal entry of `compute_C_plane_stress`. -/
theorem C4_plane_stress_lame (E nu : ℚ) (h1 : nu ≠ 1/2) (h2 : nu ≠ -1) :
    PlaneStressLinearElasticIsotropic.get_Lame_parameters E nu =
      (2 * (LinearElasticIsotropic.get_Lame_parameters E nu).2 *
          (LinearElasticIsotropic.get_Lame_parameters E nu).1 /
          ((LinearElasticIsotropic.get_Lame_parameters E nu).1 +
            2 * (LinearElasticIsotropic.get_Lame_parameters E nu).2),
        (LinearElasticIsotropic.get_Lame_parameters E nu).2) ∧
    (PlaneStressLinearElasticIsotropic.get_Lame_parameters E nu).1 =
      E * nu / (1 - nu ^ 2) ∧
    (LinearElasticIsotropic.ofEnu E nu).compute_C_plane_stress 0 1 =
      E * nu / (1 - nu ^ 2) := by
  refine ⟨rfl, lame_ratio_eq E nu h1 h2, ?_⟩
  have hentry : (LinearElasticIsotropic.ofEnu E nu).compute_C_plane_stress 0 1 =
      E / (1 - nu ^ 2) * nu := by
    simp [LinearElasticIsotropic.compute_C_plane_stress, LinearElasticIsotropic.ofEnu]
  rw [hentry, div_mul_eq_mul_div]

/-- Witness for C4 at `E = 9`, `nu = 1/4`. -/
theorem C4_witness :
    ((1 : ℚ)/4 ≠ 1/2 ∧ (1 : ℚ)/4 ≠ -1) ∧
    (PlaneStressLinearElasticIsotropic.get_Lame_parameters 9 (1/4) =
      (2 * (LinearElasticIsotropic.get_Lame_parameters 9 (1/4)).2 *
          (LinearElasticIsotropic.get_Lame_parameters 9 (1/4)).1 /
          ((LinearElasticIsotropic.get_Lame_parameters 9 (1/4)).1 +
            2 * (LinearElasticIsotropic.get_Lame_parameters 9 (1/4)).2),
        (LinearElasticIsotropic.get_Lame_parameters 9 (1/4)).2) ∧
     (PlaneStressLinearElasticIsotropic.get_Lame_parameters 9 (1/4)).1 =
       9 * (1/4) / (1 - (1/4) ^ 2) ∧
     (LinearElasticIsotropic.ofEnu 9 (1/4)).compute_C_plane_stress 0 1 =
       9 * (1/4) / (1 - (1/4) ^ 2)) :=
  ⟨⟨by norm_num, by norm_num⟩,
    C4_plane_stress_lame 9 (1/4) (by norm_num) (by norm_num)⟩

/-- C5: `compute_C_plane_stress` is a symmetric 3×3 matrix with
`C11 = C22 = E/(1 - nu²)`, `C12 = C21 = nu·C11`, zero remaining
off-diagonal entries, and `C33 = E/(2·(1 + nu)) = C11·(1 - nu)/2`. -/
theorem C5_plane_stress_matrix (E nu : ℚ) (h1 : nu ≠ 1) (h2 : nu ≠ -1) :
    ((LinearElasticIsotropic.ofEnu E nu).compute_C_plane_stress).transpose =
      (LinearElasticIsotropic.ofEnu E nu).compute_C_plane_stress ∧
    (LinearElasticIsotropic.ofEnu E nu).compute_C_plane_stress 0 0 =
      E / (1 - nu ^ 2) ∧
    (LinearElasticIsotropic.ofEnu E nu).compute_C_plane_stress 1 1 =
      E / (1 - nu ^ 2) ∧
    (LinearElasticIsotropic.ofEnu E nu).compute_C_plane_stress 0 1 =
      nu * (E / (1 - nu ^ 2)) ∧
    (LinearElasticIsotropic.ofEnu E nu).compute_C_plane_stress 1 0 =
      nu * (E / (1 - nu ^ 2)) ∧
    (LinearElasticIsotropic.ofEnu E nu).compute_C_plane_stress 0 2 = 0 ∧
    (LinearElasticIsotropic.ofEnu E nu).compute_C_plane_stress 2 0 = 0 ∧
    (LinearElasticIsotropic.ofEnu E nu).compute_C_plane_stress 1 2 = 0 ∧
    (LinearElasticIsotropic.ofEnu E nu).compute_C_plane_stress 2 1 = 0 ∧
    (LinearElasticIsotropic.ofEnu E nu).compute_C_plane_stress 2 2 =
      E / (2 * (1 + nu)) ∧
    (LinearElasticIsotropic.ofEnu E nu).compute_C_plane_stress 2 2 =
      E / (1 - nu ^ 2) * (1 - nu) / 2 := by
  have hent22 : (LinearElasticIsotropic.ofEnu E nu).compute_C_plane_stress 2 2 =
      E / (2 * (1 + nu)) := by
    simp [LinearElasticIsotropic.compute_C_plane_stress, LinearElasticIsotropic.ofEnu]
  refine ⟨?_, ?_, ?_, ?_, ?_, ?_, ?_, ?_, ?_, hent22, ?_⟩
  · ext i j
    fin_cases i <;> fin_cases j <;>
      simp [LinearElasticIsotropic.compute_C_plane_stress]
  · simp [LinearElasticIsotropic.compute_C_plane_stress, LinearElasticIsotropic.ofEnu]
  · simp [LinearElasticIsotropic.compute_C_plane_stress, LinearElasticIsotropic.ofEnu]
  · simp [LinearElasticIsotropic.compute_C_plane_stress, LinearElasticIsotropic.ofEnu,
      mul_comm]
  · simp [LinearElasticIsotropic.compute_C_plane_stress, LinearElasticIsotropic.ofEnu,
      mul_comm]
  · simp [LinearElasticIsotropic.compute_C_plane_stress]
  · simp [LinearElasticIsotropic.compute_C_plane_stress]
  · simp [LinearElasticIsotropic.compute_C_plane_stress]
  · simp [LinearElasticIsotropic.compute_C_plane_stress]
  · rw [hent22]
    exact c33_eq E nu h1 h2

/-- Witness for C5 at `E = 9`, `nu = 1/4`. -/
theorem C5_witness :
    ((1 : ℚ)/4 ≠ 1 ∧ (1 : ℚ)/4 ≠ -1) ∧
    (((LinearElasticIsotropic.ofEnu 9 (1/4)).compute_C_plane_stress).transpose =
        (LinearElasticIsotropic.ofEnu 9 (1/4)).compute_C_plane_stress ∧
      (LinearElasticIsotropic.ofEnu 9 (1/4)).compute_C_plane_stress 0 0 =
        9 / (1 - (1/4) ^ 2) ∧
      (LinearElasticIsotropic.ofEnu 9 (1/4)).compute_C_plane_stress 1 1 =
        9 / (1 - (1/4) ^ 2) ∧
      (LinearElasticIsotropic.ofEnu 9 (1/4)).compute_C_plane_stress 0 1 =
        1/4 * (9 / (1 - (1/4) ^ 2)) ∧
      (LinearElasticIsotropic.ofEnu 9 (1/4)).compute_C_plane_stress 1 0 =
        1/4 * (9 / (1 - (1/4) ^ 2)) ∧
      (LinearElasticIsotropic.ofEnu 9 (1/4)).compute_C_plane_stress 0 2 = 0 ∧
      (LinearElasticIsotropic.ofEnu 9 (1/4)).compute_C_plane_stress 2 0 = 0 ∧
      (LinearElasticIsotropic.ofEnu 9 (1/4)).compute_C_plane_stress 1 2 = 0 ∧
      (LinearElasticIsotropic.ofEnu 9 (1/4)).compute_C_plane_stress 2 1 = 0 ∧
      (LinearElasticIsotropic.ofEnu 9 (1/4)).compute_C_plane_stress 2 2 =
        9 / (2 * (1 + 1/4)) ∧
      (LinearElasticIsotropic.ofEnu 9 (1/4)).compute_C_plane_stress 2 2 =
        9 / (1 - (1/4) ^ 2) * (1 - 1/4) / 2) :=
  ⟨⟨by norm_num, by norm_num⟩,
    C5_plane_stress_matrix 9 (1/4) (by norm_num) (by norm_num)⟩

/-- C6: the two routes to the isotropic stiffness agree: `compute_C(E, nu)`,
which goes through the Lamé parameters and `kappa = lambda + 2·mu/3`,
returns the same matrix as the `C` stored by `__init__` from `(E, nu)`. -/
theorem C6_compute_C_agrees (E nu : ℚ) (h1 : nu ≠ 1/2) (h2 : nu ≠ -1) :
    LinearElasticIsotropic.compute_C E nu = (LinearElasticIsotropic.ofEnu E nu).C := by
  have e1 := kappa_from_lame_eq E nu h1 h2
  have e2 : (2 : ℚ) * (E / 2 / (1 + nu)) = 2 * (E / (2 * (1 + nu))) := by
    rw [div_div]
  show (3 * (E * nu / (1 + nu) / (1 - 2 * nu) + 2 / 3 * (E / 2 / (1 + nu)))) • Jmat +
      (2 * (E / 2 / (1 + nu))) • Kmat =
    (3 * (E / (3 * (1 - 2 * nu)))) • Jmat + (2 * (E / (2 * (1 + nu)))) • Kmat
  rw [e1, e2]

/-- Witness for C6 at `E = 9`, `nu = 1/4`. -/
theorem C6_witness :
    ((1 : ℚ)/4 ≠ 1/2 ∧ (1 : ℚ)/4 ≠ -1) ∧
    LinearElasticIsotropic.compute_C 9 (1/4) =
      (LinearElasticIsotropic.ofEnu 9 (1/4)).C :=
  ⟨⟨by norm_num, by norm_num⟩, C6_compute_C_agrees 9 (1/4) (by norm_num) (by norm_num)⟩

/-- C7: constructing from positive `(kappa, mu)` stores
`E = 9·kappa·mu/(3·kappa + mu)` and
`nu = (3·kappa - 2·mu)/(2·(3·kappa + mu))`, and these satisfy
`E/(3·(1 - 2·nu)) = kappa` and `E/(2·(1 + nu)) = mu`: the four stored
moduli are mutually consistent. -/
theorem C7_moduli_roundtrip (kappa mu : ℚ) (hk : 0 < kappa) (hm : 0 < mu) :
    (LinearElasticIsotropic.ofKmu kappa mu).E = 9 * kappa * mu / (3 * kappa + mu) ∧
    (LinearElasticIsotropic.ofKmu kappa mu).nu =
      (3 * kappa - 2 * mu) / (2 * (3 * kappa + mu)) ∧
    (LinearElasticIsotropic.ofKmu kappa mu).E /
        (3 * (1 - 2 * (LinearElasticIsotropic.ofKmu kappa mu).nu)) = kappa ∧
    (LinearElasticIsotropic.ofKmu kappa mu).E /
        (2 * (1 + (LinearElasticIsotropic.ofKmu kappa mu).nu)) = mu ∧
    (LinearElasticIsotropic.ofKmu kappa mu).kappa = kappa ∧
    (LinearElasticIsotropic.ofKmu kappa mu).mu = mu := by
  refine ⟨rfl, rfl, ?_, ?_, rfl, rfl⟩
  · exact kmu_E_over_bulk kappa mu hk hm
  · exact kmu_E_over_shear kappa mu hk hm

/-- Witness for C7 at `kappa = 2`, `mu = 1`. -/
theorem C7_witness :
    ((0 : ℚ) < 2 ∧ (0 : ℚ) < 1) ∧
    ((LinearElasticIsotropic.ofKmu 2 1).E = 9 * 2 * 1 / (3 * 2 + 1) ∧
     (LinearElasticIsotropic.ofKmu 2 1).nu = (3 * 2 - 2 * 1) / (2 * (3 * 2 + 1)) ∧
     (LinearElasticIsotropic.ofKmu 2 1).E /
        (3 * (1 - 2 * (LinearElasticIsotropic.ofKmu 2 1).nu)) = 2 ∧
     (LinearElasticIsotropic.ofKmu 2 1).E /
        (2 * (1 + (LinearElasticIsotropic.ofKmu 2 1).nu)) = 1 ∧
     (LinearElasticIsotropic.ofKmu 2 1).kappa = 2 ∧
     (LinearElasticIsotropic.ofKmu 2 1).mu = 1) :=
  ⟨⟨by norm_num, by norm_num⟩, C7_moduli_roundtrip 2 1 (by norm_num) (by norm_num)⟩
